import Mathlib

/-
Shallow embedding of the klados-server Express application (src/index.js).

The server is a stateless per-request proxy.  Each HTTP handler is embedded
as a pure Lean function from the request data plus an oracle for the
outbound network call (the Supabase identity backend, the Supabase data
backend, or an AI provider) to the HTTP response it produces.  Where a claim
is about the payload a handler sends outward, the handler also returns the
outbound call it issued, so that theorems can speak about it directly.

JavaScript values occurring in request/response bodies are embedded as the
inductive type JVal; JS objects are association lists of (key, value) pairs
and the JS object-literal spread with a trailing key, as in
  const payload = { ...req.body, user_id: req.user.id }   (src/index.js:191)
is embedded by jsSpreadSet (later value wins for the repeated key, the key
keeps its original position, and a new key is appended at the end, exactly
the ECMAScript object-literal evaluation order).
-/

/-- JavaScript values as they appear in JSON request/response bodies:
strings, booleans, integers, arrays, objects, null and undefined. -/
inductive JVal where
  | s (str : String)
  | b (bool : Bool)
  | i (int : Int)
  | arr (elems : List JVal)
  | obj (fields : List (String × JVal))
  | null
  | undef

/-- A JavaScript object: ordered association list of fields. -/
abbrev Obj := List (String × JVal)

/-- Property lookup on an object's field list: first binding wins
(JS objects have unique keys, so this is plain property lookup). -/
def jsLookup : Obj → String → Option JVal
  | [], _ => none
  | p :: rest, k => if p.1 = k then some p.2 else jsLookup rest k

/-- JS property access `o.k`: undefined when the key is absent. -/
def jsGet (o : Obj) (k : String) : JVal :=
  (jsLookup o k).getD JVal.undef

/-- JS property access on an arbitrary value: `v.k` is undefined unless
`v` is an object carrying the key. -/
def jsGetV : JVal → String → JVal
  | JVal.obj fields, k => jsGet fields k
  | _, _ => JVal.undef

/-- Does the object have the key? -/
def hasKey : Obj → String → Bool
  | [], _ => false
  | p :: rest, k => if p.1 = k then true else hasKey rest k

/-- Replace the value at every binding of key `k` (positions preserved). -/
def setAll : Obj → String → JVal → Obj
  | [], _, _ => []
  | p :: rest, k, v => (if p.1 = k then (k, v) else p) :: setAll rest k v

/-- The JS object literal `{ ...o, k: v }`: if `o` has the key, its value is
replaced in place (the later literal entry wins); otherwise `(k, v)` is
appended after `o`'s fields. -/
def jsSpreadSet (o : Obj) (k : String) (v : JVal) : Obj :=
  if hasKey o k then setAll o k v else o ++ [(k, v)]

/-- Semantics of the external backend's row update: applying an update
payload to a stored row sets exactly the payload's keys and nothing else.
This models the out-of-scope data backend's `update` operation, used only
to express the frame part of the node-title update claim. -/
def applyUpdate (row : Obj) (payload : Obj) : Obj :=
  payload.foldl (fun r q => jsSpreadSet r q.1 q.2) row

/-- The body of an HTTP response: a JSON value (`res.json(...)`), a piped
byte stream (`response.data.pipe(res)`), or plain text (`res.send(...)`). -/
inductive RespBody where
  | json (v : JVal)
  | stream (chunks : List String)
  | text (t : String)

/-- An HTTP response: status code, explicitly set headers, body. -/
structure HttpResponse where
  status : Nat
  headers : List (String × String)
  body : RespBody

/-- The error body `{ error: msg }`. -/
def errObj (msg : String) : JVal :=
  JVal.obj [("error", JVal.s msg)]

/-- `res.status(st).json(v)` (Express defaults the status to 200). -/
def jsonResp (status : Nat) (v : JVal) : HttpResponse :=
  ⟨status, [], RespBody.json v⟩

/-- `res.status(st).json({ error: msg })`. -/
def errResp (status : Nat) (msg : String) : HttpResponse :=
  jsonResp status (errObj msg)

/-- JavaScript `str.split(' ')` on the character list: split at every single
space character, keeping empty fields, and `''.split(' ')` gives `['']`. -/
def splitOnSpace : List Char → List (List Char)
  | [] => [[]]
  | c :: rest =>
    if c = Char.ofNat 32 then [] :: splitOnSpace rest
    else
      match splitOnSpace rest with
      | [] => [[c]]
      | f :: fs => (c :: f) :: fs

/-- JavaScript `s.split(' ')` as a list of strings. -/
def jsSplitSpace (s : String) : List String :=
  (splitOnSpace s.data).map String.mk

/-- Token extraction of the auth guard (src/index.js:112):
`req.headers.authorization?.split(' ')[1]` — the second space-separated
field of the Authorization header, undefined when the header is missing or
has no second field. -/
def extractToken : Option String → Option String
  | none => none
  | some h => (jsSplitSpace h).get? 1

/-- Modelled from the claim's words, for comparison with `extractToken`:
the substring of the header after its FIRST space (everything that follows
the first space), none when the header contains no space. -/
def substringAfterFirstSpace (h : String) : Option String :=
  match jsSplitSpace h with
  | [] => none
  | [_] => none
  | _ :: rest => some (String.intercalate " " rest)

/-- The identity resolved by the Supabase identity backend. -/
structure User where
  id : String
  email : String

/-- Outcome of the identity backend's `auth.getUser()` call
(src/index.js:126): a resolved user, a rejection (`error` present or `user`
empty, with the optional `error.message`), or a thrown exception. -/
inductive IdentityResult where
  | success (u : User)
  | failure (msg : Option String)
  | thrown (msg : String)

/-- Outcome of the auth guard: either a short-circuit response or a
granted user, together with the number of identity-backend calls made. -/
inductive AuthResult where
  | denied (resp : HttpResponse) (identityCalls : Nat)
  | granted (u : User) (identityCalls : Nat)

/-- Verification of a present token (src/index.js:119-140): exactly one
`getUser` round-trip; rejection responds 401 with the fixed body
`{ error: 'Invalid token' }` (the backend's message is only logged); a
thrown exception responds 500 `{ error: 'Internal Auth Error' }`. -/
def verifyToken (t : String) (getUser : String → IdentityResult) : AuthResult :=
  match getUser t with
  | IdentityResult.success u => AuthResult.granted u 1
  | IdentityResult.failure _ => AuthResult.denied (errResp 401 "Invalid token") 1
  | IdentityResult.thrown _ => AuthResult.denied (errResp 500 "Internal Auth Error") 1

/-- The auth guard `authenticateUser` (src/index.js:111-141).  The token is
`authorization?.split(' ')[1]`; `if (!token)` — token undefined or the
empty string — responds 401 `{ error: 'Unauthorized' }` with no backend
call; otherwise the token is verified with one identity-backend call. -/
def authenticateUser (authHeader : Option String)
    (getUser : String → IdentityResult) : AuthResult :=
  match extractToken authHeader with
  | none => AuthResult.denied (errResp 401 "Unauthorized") 0
  | some t =>
    if t = "" then AuthResult.denied (errResp 401 "Unauthorized") 0
    else verifyToken t getUser

/-- `!token` of the guard, as a predicate on the extracted token. -/
def tokenFalsy (t : Option String) : Prop :=
  t = none ∨ t = some ""

/-- Result of running a `/api/db/*` route: the response, how many
identity-backend calls were made, and whether the route handler (the data
operation) ran at all. -/
structure DbRouteResult where
  response : HttpResponse
  identityCalls : Nat
  handlerRan : Bool

/-- A `/api/db/*` route: the `authenticateUser` middleware runs first and
the handler runs only when it granted access (Express `next()`). -/
def runDbRoute (authHeader : Option String) (getUser : String → IdentityResult)
    (handler : User → HttpResponse) : DbRouteResult :=
  match authenticateUser authHeader getUser with
  | AuthResult.denied resp n => ⟨resp, n, false⟩
  | AuthResult.granted u n => ⟨handler u, n, true⟩

/-- Outcome of a Supabase data-backend query: `{ data, error }`. -/
inductive QueryResult (α : Type) where
  | ok (data : α)
  | err (msg : String)

/-- An insert sent to the data backend: target table and the row payload. -/
structure InsertCall where
  table : String
  payload : Obj

/-- The insert payload `{ ...req.body, user_id: req.user.id }`
(src/index.js:191,205,237,285). -/
def insertPayload (body : Obj) (userId : String) : Obj :=
  jsSpreadSet body "user_id" (JVal.s userId)

/-- Shared shape of the four POST `/api/db/*` handlers: insert
`{ ...req.body, user_id: req.user.id }` into the table, respond with the
inserted row on success (`.select().single()`), else 500 with the backend's
message.  Also returns the insert call sent to the backend. -/
def createRecord (table : String) (body : Obj) (u : User)
    (insert : InsertCall → QueryResult Obj) : HttpResponse × InsertCall :=
  let call : InsertCall := ⟨table, insertPayload body u.id⟩
  (match insert call with
   | QueryResult.ok row => jsonResp 200 (JVal.obj row)
   | QueryResult.err m => errResp 500 m, call)

/-- POST /api/db/conversations handler (src/index.js:189-198). -/
def postDbConversations (body : Obj) (u : User)
    (insert : InsertCall → QueryResult Obj) : HttpResponse × InsertCall :=
  createRecord "conversations" body u insert

/-- POST /api/db/nodes handler (src/index.js:203-212). -/
def postDbNodes (body : Obj) (u : User)
    (insert : InsertCall → QueryResult Obj) : HttpResponse × InsertCall :=
  createRecord "nodes" body u insert

/-- POST /api/db/messages handler (src/index.js:235-244). -/
def postDbMessages (body : Obj) (u : User)
    (insert : InsertCall → QueryResult Obj) : HttpResponse × InsertCall :=
  createRecord "messages" body u insert

/-- POST /api/db/bugs handler (src/index.js:283-292): table bug_reports. -/
def postDbBugs (body : Obj) (u : User)
    (insert : InsertCall → QueryResult Obj) : HttpResponse × InsertCall :=
  createRecord "bug_reports" body u insert

/-- An update sent to the data backend: table, payload, and the id the
update is filtered on (`.eq('id', id)`). -/
structure PatchCall where
  table : String
  payload : Obj
  matchId : String

/-- The conversation update payload
`{ ...req.body, updated_at: new Date().toISOString() }` (src/index.js:254);
`nowIso` is the server's clock reading at request time. -/
def updateConversationPayload (body : Obj) (nowIso : String) : Obj :=
  jsSpreadSet body "updated_at" (JVal.s nowIso)

/-- PATCH /api/db/conversations/:id handler (src/index.js:249-261): update
with all body fields plus the server timestamp, respond
`{ success: true }` on success, else 500 with the backend's message. -/
def patchDbConversation (id : String) (body : Obj) (nowIso : String)
    (update : PatchCall → Option String) : HttpResponse × PatchCall :=
  let call : PatchCall := ⟨"conversations", updateConversationPayload body nowIso, id⟩
  (match update call with
   | some m => errResp 500 m
   | none => jsonResp 200 (JVal.obj [("success", JVal.b true)]), call)

/-- The node update payload `{ title }` built from
`const { title } = req.body` (src/index.js:220-223): the single key
`title`, valued at the body's title property. -/
def updateNodePayload (body : Obj) : Obj :=
  [("title", jsGet body "title")]

/-- PATCH /api/db/nodes/:id handler (src/index.js:217-230): update only
`{ title }`, respond `{ success: true }` on success. -/
def patchDbNode (id : String) (body : Obj)
    (update : PatchCall → Option String) : HttpResponse × PatchCall :=
  let call : PatchCall := ⟨"nodes", updateNodePayload body, id⟩
  (match update call with
   | some m => errResp 500 m
   | none => jsonResp 200 (JVal.obj [("success", JVal.b true)]), call)

/-- GET /api/db/conversations/:id handler (src/index.js:164-184): fetch the
nodes with `conversations_id = id`; on error throw before the message
fetch; otherwise fetch the messages with `nodes_id` in the node ids and
respond `{ nodes, messages }`.  The Bool records whether the message fetch
was attempted. -/
def getDbConversationDetail (id : String)
    (fetchNodes : String → QueryResult (List Obj))
    (fetchMessages : List JVal → QueryResult (List Obj)) :
    HttpResponse × Bool :=
  match fetchNodes id with
  | QueryResult.err m => (errResp 500 m, false)
  | QueryResult.ok nodes =>
    match fetchMessages (nodes.map (fun n => jsGet n "id")) with
    | QueryResult.err m => (errResp 500 m, true)
    | QueryResult.ok messages =>
      (jsonResp 200 (JVal.obj
        [("nodes", JVal.arr (nodes.map JVal.obj)),
         ("messages", JVal.arr (messages.map JVal.obj))]), true)

/-- The environment configuration read by the server.  The field
privilegedServiceKeys is modelled from the spec ("a configured
privileged/service key value"): the set of credential values that are
privileged in the deployment; the source reads only SUPABASE_URL and
SUPABASE_KEY and never inspects a key's scope. -/
structure Env where
  supabaseUrl : String
  supabaseKey : String
  privilegedServiceKeys : List String

/-- GET /api/config/supabase handler (src/index.js:299-304): responds with
`{ url: SUPABASE_URL, key: SUPABASE_KEY }`, unconditionally. -/
def configSupabaseHandler (env : Env) : HttpResponse :=
  jsonResp 200 (JVal.obj
    [("url", JVal.s env.supabaseUrl), ("key", JVal.s env.supabaseKey)])

/-- The `key` field of a JSON response body. -/
def responseKeyField (r : HttpResponse) : JVal :=
  match r.body with
  | RespBody.json v => jsGetV v "key"
  | _ => JVal.undef

/-- The outbound OpenRouter completions request body
`{ model, messages, stream: stream || false }` (src/index.js:39-49). -/
structure ORCall where
  model : JVal
  messages : JVal
  stream : Bool

/-- Outcome of the axios call to OpenRouter: a resolved JSON body, a
resolved byte stream, or a rejection carrying `error.response?.status` and
`error.response?.data` when an HTTP response was received at all. -/
inductive AxiosOutcome where
  | okJson (data : JVal)
  | okStream (chunks : List String)
  | fail (respStatus : Option Nat) (respData : Option JVal)

/-- `stream: stream || false` — the body's optional stream flag defaulted
to false when absent (src/index.js:42). -/
def orRequestBody (model messages : JVal) (stream : Option Bool) : ORCall :=
  ⟨model, messages, stream.getD false⟩

/-- POST /api/openrouter/chat handler (src/index.js:35-64): relays the
upstream JSON verbatim, or pipes the upstream stream with event-stream
headers; on failure responds `error.response?.status || 500` with the
fixed body `{ error: 'Failed to fetch from OpenRouter' }`. -/
def openrouterChat (model messages : JVal) (stream : Option Bool)
    (upstream : ORCall → AxiosOutcome) : HttpResponse :=
  match upstream (orRequestBody model messages stream) with
  | AxiosOutcome.okJson d => jsonResp 200 d
  | AxiosOutcome.okStream chunks =>
    ⟨200,
     [("Content-Type", "text/event-stream"), ("Cache-Control", "no-cache"),
      ("Connection", "keep-alive")],
     RespBody.stream chunks⟩
  | AxiosOutcome.fail st _ => errResp (st.getD 500) "Failed to fetch from OpenRouter"

/-- Outcome of a provider SDK call: the resolved value or a thrown error
with its message. -/
inductive SdkResult where
  | ok (v : JVal)
  | err (msg : String)

/-- POST /api/openai/chat handler (src/index.js:69-81): relays the full
completion object verbatim; on failure always responds 500 with the fixed
body `{ error: 'Failed to fetch from OpenAI' }`. -/
def openaiChat (model messages : JVal)
    (upstream : JVal → JVal → SdkResult) : HttpResponse :=
  match upstream model messages with
  | SdkResult.ok completion => jsonResp 200 completion
  | SdkResult.err _ => errResp 500 "Failed to fetch from OpenAI"

/-- The destructured POST /api/gemini/generate request body
`{ model, prompt, history, files }` (src/index.js:88): model and history
are optional (undefined when absent). -/
structure GeminiReq where
  model : Option String
  prompt : JVal
  history : Option (List JVal)
  files : JVal

/-- The outbound `generateContent` call `{ model, contents }`
(src/index.js:89-95); it has no field for the request's files. -/
structure GenCall where
  model : String
  contents : List JVal

/-- `modelName || "gemini-1.5-flash"` (src/index.js:90): the fallback is
used when the model is absent (undefined/null) or the empty string (both
falsy in JS). -/
def geminiModelName : Option String → String
  | none => "gemini-1.5-flash"
  | some m => if m = "" then "gemini-1.5-flash" else m

/-- The call built by the Gemini handler: contents =
`[...(history || []), { role: 'user', parts: [{ text: prompt }] }]`
(src/index.js:91-94). -/
def geminiCall (r : GeminiReq) : GenCall :=
  ⟨geminiModelName r.model,
   r.history.getD [] ++
     [JVal.obj [("role", JVal.s "user"),
                ("parts", JVal.arr [JVal.obj [("text", r.prompt)]])]]⟩

/-- POST /api/gemini/generate handler (src/index.js:86-101): calls the
provider with `geminiCall`, responds `{ text: response.text }` on success
(`response.text` embedded as property access on the resolved value), and
500 with the fixed body `{ error: 'Failed to fetch from Gemini' }` on
failure.  Also returns the call sent to the provider. -/
def geminiGenerate (r : GeminiReq)
    (provider : GenCall → SdkResult) : HttpResponse × GenCall :=
  (match provider (geminiCall r) with
   | SdkResult.ok response => jsonResp 200 (JVal.obj [("text", jsGetV response "text")])
   | SdkResult.err _ => errResp 500 "Failed to fetch from Gemini", geminiCall r)

/- Concrete fixtures for witnesses and counterexamples. -/

/-- An identity backend that rejects every token with a message. -/
def rejectAllIdentity : String → IdentityResult :=
  fun _ => IdentityResult.failure (some "invalid JWT")

/-- An identity backend that rejects every token with message
"JWT expired". -/
def jwtExpiredIdentity : String → IdentityResult :=
  fun _ => IdentityResult.failure (some "JWT expired")

/-- An identity backend that accepts every token as user u1. -/
def acceptAllIdentity : String → IdentityResult :=
  fun _ => IdentityResult.success ⟨"U1", "u1@example.com"⟩

/-- A route handler responding 200 with a null body. -/
def nullHandler : User → HttpResponse :=
  fun _ => jsonResp 200 JVal.null

/-- A data backend whose update always succeeds. -/
def alwaysOkUpdate : PatchCall → Option String :=
  fun _ => none

/-- A data backend whose insert succeeds and returns exactly the row it
was sent. -/
def echoInsert : InsertCall → QueryResult Obj :=
  fun c => QueryResult.ok c.payload

/-- A node fetch that fails with "node fetch failed". -/
def errNodesFetch : String → QueryResult (List Obj) :=
  fun _ => QueryResult.err "node fetch failed"

/-- A node fetch returning one node with id n1. -/
def okNodesFetch : String → QueryResult (List Obj) :=
  fun _ => QueryResult.ok [[("id", JVal.s "n1")]]

/-- A message fetch returning no messages. -/
def okMessagesFetch : List JVal → QueryResult (List Obj) :=
  fun _ => QueryResult.ok []

/-- A deployment whose SUPABASE_KEY is configured with the privileged
service-role key (the source's comment at src/index.js:106 explicitly
allows this configuration). -/
def leakedEnv : Env :=
  ⟨"https://example.supabase.co", "service-role-key", ["service-role-key"]⟩

/- Helper lemmas about the JS object-literal spread. -/

theorem hasKey_false_forall {o : Obj} {k : String} (h : hasKey o k = false) :
    ∀ p ∈ o, p.1 ≠ k := by
  induction o with
  | nil => intro p hp; exact absurd hp (List.not_mem_nil p)
  | cons q rest ih =>
    intro p hp
    simp only [hasKey] at h
    by_cases hq : q.1 = k
    · simp [hq] at h
    · rw [if_neg hq] at h
      rcases List.mem_cons.mp hp with hp | hp
      · rw [hp]; exact hq
      · exact ih h p hp

theorem jsLookup_setAll_self {o : Obj} {k : String} (v : JVal)
    (h : hasKey o k = true) : jsLookup (setAll o k v) k = some v := by
  induction o with
  | nil => simp [hasKey] at h
  | cons q rest ih =>
    simp only [hasKey] at h
    by_cases hq : q.1 = k
    · simp [setAll, if_pos hq, jsLookup]
    · rw [if_neg hq] at h
      simp only [setAll, if_neg hq, jsLookup]
      exact ih h

theorem jsLookup_append_self {o : Obj} {k : String} (v : JVal)
    (h : hasKey o k = false) : jsLookup (o ++ [(k, v)]) k = some v := by
  induction o with
  | nil => simp [jsLookup]
  | cons q rest ih =>
    simp only [hasKey] at h
    by_cases hq : q.1 = k
    · simp [hq] at h
    · rw [if_neg hq] at h
      simp only [List.cons_append, jsLookup]
      rw [if_neg hq]
      exact ih h

theorem jsLookup_jsSpreadSet_self (o : Obj) (k : String) (v : JVal) :
    jsLookup (jsSpreadSet o k v) k = some v := by
  unfold jsSpreadSet
  by_cases h : hasKey o k = true
  · rw [if_pos h]; exact jsLookup_setAll_self v h
  · rw [if_neg h]
    exact jsLookup_append_self v (Bool.not_eq_true _ ▸ h)

theorem jsLookup_setAll_other {o : Obj} {k k' : String} (v : JVal)
    (hne : k' ≠ k) : jsLookup (setAll o k v) k' = jsLookup o k' := by
  induction o with
  | nil => rfl
  | cons q rest ih =>
    by_cases hq : q.1 = k
    · simp only [setAll, if_pos hq, jsLookup]
      rw [if_neg (show ¬(k = k') from fun hh => hne hh.symm),
        if_neg (show ¬(q.1 = k') from fun hh => hne (hq ▸ hh).symm)]
      exact ih
    · simp only [setAll, if_neg hq, jsLookup]
      by_cases hq' : q.1 = k'
      · rw [if_pos hq', if_pos hq']
      · rw [if_neg hq', if_neg hq']
        exact ih

theorem jsLookup_append_other {o : Obj} {k k' : String} (v : JVal)
    (hne : k' ≠ k) : jsLookup (o ++ [(k, v)]) k' = jsLookup o k' := by
  induction o with
  | nil =>
    simp only [List.nil_append, jsLookup]
    rw [if_neg (show ¬(k = k') from fun hh => hne hh.symm)]
  | cons q rest ih =>
    simp only [List.cons_append, jsLookup]
    by_cases hq' : q.1 = k'
    · rw [if_pos hq', if_pos hq']
    · rw [if_neg hq', if_neg hq']
      exact ih

theorem jsLookup_jsSpreadSet_other (o : Obj) {k k' : String} (v : JVal)
    (hne : k' ≠ k) : jsLookup (jsSpreadSet o k v) k' = jsLookup o k' := by
  unfold jsSpreadSet
  by_cases h : hasKey o k = true
  · rw [if_pos h]; exact jsLookup_setAll_other v hne
  · rw [if_neg h]; exact jsLookup_append_other v hne

theorem setAll_mem_key {o : Obj} {k : String} {v : JVal} :
    ∀ p ∈ setAll o k v, p.1 = k → p.2 = v := by
  induction o with
  | nil => intro p hp; exact absurd hp (List.not_mem_nil p)
  | cons q rest ih =>
    intro p hp hk
    simp only [setAll] at hp
    rcases List.mem_cons.mp hp with hp | hp
    · by_cases hq : q.1 = k
      · rw [if_pos hq] at hp; rw [hp]
      · rw [if_neg hq] at hp; rw [hp] at hk; exact absurd hk hq
    · exact ih p hp hk

theorem jsSpreadSet_mem_key {o : Obj} {k : String} {v : JVal} :
    ∀ p ∈ jsSpreadSet o k v, p.1 = k → p.2 = v := by
  unfold jsSpreadSet
  by_cases h : hasKey o k = true
  · rw [if_pos h]; exact setAll_mem_key
  · rw [if_neg h]
    intro p hp hk
    rcases List.mem_append.mp hp with hp | hp
    · exact absurd hk (hasKey_false_forall (Bool.not_eq_true _ ▸ h) p hp)
    · rcases List.mem_singleton.mp hp with hp
      rw [hp]

/- Helper lemmas about the JS single-space split. -/

theorem splitOnSpace_ne_nil (cs : List Char) : splitOnSpace cs ≠ [] := by
  induction cs with
  | nil => simp [splitOnSpace]
  | cons c rest ih =>
    by_cases hc : c = Char.ofNat 32
    · simp [splitOnSpace, hc]
    · simp only [splitOnSpace, if_neg hc]
      cases hr : splitOnSpace rest with
      | nil => exact absurd hr ih
      | cons f fs => simp

theorem splitOnSpace_no_space {cs : List Char}
    (h : ∀ c ∈ cs, c ≠ Char.ofNat 32) : splitOnSpace cs = [cs] := by
  induction cs with
  | nil => rfl
  | cons c rest ih =>
    have hc : c ≠ Char.ofNat 32 := h c (List.mem_cons_self c rest)
    have hr : splitOnSpace rest = [rest] :=
      ih (fun d hd => h d (List.mem_cons_of_mem c hd))
    simp only [splitOnSpace, if_neg hc, hr]

theorem splitOnSpace_append_space {cs1 : List Char} (cs2 : List Char)
    (h : ∀ c ∈ cs1, c ≠ Char.ofNat 32) :
    splitOnSpace (cs1 ++ Char.ofNat 32 :: cs2) = cs1 :: splitOnSpace cs2 := by
  induction cs1 with
  | nil => simp [splitOnSpace]
  | cons c rest ih =>
    have hc : c ≠ Char.ofNat 32 := h c (List.mem_cons_self c rest)
    have hr := ih (fun d hd => h d (List.mem_cons_of_mem c hd))
    simp only [List.cons_append, splitOnSpace, if_neg hc, List.append_eq, hr]

/-- C1: For every successful insert via POST /api/db/conversations,
/api/db/nodes, /api/db/messages, or /api/db/bugs (each an instance of
`createRecord` at its table), the row sent to the backend carries
`user_id` equal to the verified identity's id regardless of any
body-supplied user_id (every `user_id` binding of the payload holds the
identity's id — overridden, not merged — and all other fields pass
through unchanged); the success response is the backend's inserted row,
whose `user_id` hence also equals the identity's id whenever the backend
returns the stored `user_id` of the row it was sent. -/
theorem db_insert_sets_owner_from_identity (body : Obj) (u : User)
    (insert : InsertCall → QueryResult Obj) :
    (postDbConversations body u insert = createRecord "conversations" body u insert ∧
     postDbNodes body u insert = createRecord "nodes" body u insert ∧
     postDbMessages body u insert = createRecord "messages" body u insert ∧
     postDbBugs body u insert = createRecord "bug_reports" body u insert) ∧
    (∀ table, (createRecord table body u insert).2 = ⟨table, insertPayload body u.id⟩) ∧
    jsLookup (insertPayload body u.id) "user_id" = some (JVal.s u.id) ∧
    (∀ p ∈ insertPayload body u.id, p.1 = "user_id" → p.2 = JVal.s u.id) ∧
    (∀ k, k ≠ "user_id" → jsLookup (insertPayload body u.id) k = jsLookup body k) ∧
    (∀ table row, insert ⟨table, insertPayload body u.id⟩ = QueryResult.ok row →
      (createRecord table body u insert).1 = jsonResp 200 (JVal.obj row) ∧
      (jsLookup row "user_id" = jsLookup (insertPayload body u.id) "user_id" →
        jsLookup row "user_id" = some (JVal.s u.id))) := by
  refine ⟨⟨rfl, rfl, rfl, rfl⟩, fun table => rfl,
    jsLookup_jsSpreadSet_self body "user_id" (JVal.s u.id),
    jsSpreadSet_mem_key,
    fun k hk => jsLookup_jsSpreadSet_other body (JVal.s u.id) hk, ?_⟩
  intro table row hrow
  constructor
  · simp only [createRecord]
    rw [hrow]
  · intro hecho
    rw [hecho]
    exact jsLookup_jsSpreadSet_self body "user_id" (JVal.s u.id)

/-- Witness for C1 at a concrete input: body-supplied user_id "attacker"
is overridden with the identity's id "U1" and the response carries the
inserted row. -/
theorem db_insert_sets_owner_from_identity_witness :
    jsLookup (insertPayload [("title", JVal.s "Test"), ("user_id", JVal.s "attacker")] "U1")
      "user_id" = some (JVal.s "U1") ∧
    (postDbConversations [("title", JVal.s "Test"), ("user_id", JVal.s "attacker")]
      ⟨"U1", "u1@example.com"⟩ echoInsert).1 =
      jsonResp 200 (JVal.obj [("title", JVal.s "Test"), ("user_id", JVal.s "U1")]) := by
  have h := db_insert_sets_owner_from_identity
    [("title", JVal.s "Test"), ("user_id", JVal.s "attacker")] ⟨"U1", "u1@example.com"⟩ echoInsert
  refine ⟨h.2.2.1, ?_⟩
  rw [h.1.1, (h.2.2.2.2.2 "conversations"
    (insertPayload [("title", JVal.s "Test"), ("user_id", JVal.s "attacker")] "U1") rfl).1]
  rfl

/-- C2 counterexample: the claim "the key value returned is never a
privileged/service key" fails at the concrete deployment `leakedEnv`,
where SUPABASE_KEY is configured with the privileged service-role key
(a configuration the source's own comment allows): the handler returns
exactly that privileged key. -/
theorem config_supabase_privileged_key_counterexample :
    responseKeyField (configSupabaseHandler leakedEnv) = JVal.s "service-role-key" ∧
    "service-role-key" ∈ leakedEnv.privilegedServiceKeys ∧
    configSupabaseHandler leakedEnv = jsonResp 200 (JVal.obj
      [("url", JVal.s "https://example.supabase.co"),
       ("key", JVal.s "service-role-key")]) :=
  ⟨rfl, by decide, rfl⟩

/-- C2 (amended): GET /api/config/supabase responds, for every request,
with an object containing exactly the two fields url and key, where key
is the configured SUPABASE_KEY verbatim; the handler performs no scope
check, so the returned key differs from every configured
privileged/service key only under the deployment assumption that
SUPABASE_KEY is not itself one of them. -/
theorem config_supabase_returns_configured_key (env : Env) :
    configSupabaseHandler env = jsonResp 200 (JVal.obj
      [("url", JVal.s env.supabaseUrl), ("key", JVal.s env.supabaseKey)]) ∧
    responseKeyField (configSupabaseHandler env) = JVal.s env.supabaseKey ∧
    (env.supabaseKey ∉ env.privilegedServiceKeys →
      ∀ pk ∈ env.privilegedServiceKeys,
        responseKeyField (configSupabaseHandler env) ≠ JVal.s pk) := by
  refine ⟨rfl, rfl, ?_⟩
  intro hnp pk hpk heq
  have h2 : responseKeyField (configSupabaseHandler env) = JVal.s env.supabaseKey := rfl
  rw [h2] at heq
  injection heq with h3
  subst h3
  exact hnp hpk

/-- Witness for C2's amended theorem at a concrete deployment whose
SUPABASE_KEY is the anon key: the returned key is not the service key. -/
theorem config_supabase_returns_configured_key_witness :
    responseKeyField (configSupabaseHandler
      ⟨"https://example.supabase.co", "anon-key", ["service-role-key"]⟩) ≠
      JVal.s "service-role-key" :=
  (config_supabase_returns_configured_key
    ⟨"https://example.supabase.co", "anon-key", ["service-role-key"]⟩).2.2
    (by decide) "service-role-key" (by decide)

/-- C5: For every GET /api/db/conversations/:id request, if the node fetch
errors then the message fetch is not attempted and the response is a 500
error carrying exactly the node-fetch error's message (no partial result);
if both fetches succeed the response is the single object
`{ nodes, messages }` containing both collections. -/
theorem conversation_detail_abort_and_join (id : String)
    (fetchNodes : String → QueryResult (List Obj))
    (fetchMessages : List JVal → QueryResult (List Obj)) :
    (∀ m, fetchNodes id = QueryResult.err m →
      getDbConversationDetail id fetchNodes fetchMessages = (errResp 500 m, false)) ∧
    (∀ ns ms, fetchNodes id = QueryResult.ok ns →
      fetchMessages (ns.map (fun n => jsGet n "id")) = QueryResult.ok ms →
      getDbConversationDetail id fetchNodes fetchMessages =
        (jsonResp 200 (JVal.obj
          [("nodes", JVal.arr (ns.map JVal.obj)),
           ("messages", JVal.arr (ms.map JVal.obj))]), true)) := by
  constructor
  · intro m hm
    simp only [getDbConversationDetail, hm]
  · intro ns ms hn hm
    simp only [getDbConversationDetail, hn, hm]

/-- Witness for C5: a failing node fetch aborts with its message and no
message fetch; a succeeding pair returns both collections together. -/
theorem conversation_detail_abort_and_join_witness :
    getDbConversationDetail "c1" errNodesFetch okMessagesFetch =
      (errResp 500 "node fetch failed", false) ∧
    getDbConversationDetail "c1" okNodesFetch okMessagesFetch =
      (jsonResp 200 (JVal.obj
        [("nodes", JVal.arr [JVal.obj [("id", JVal.s "n1")]]),
         ("messages", JVal.arr [])]), true) :=
  ⟨(conversation_detail_abort_and_join "c1" errNodesFetch okMessagesFetch).1
      "node fetch failed" rfl,
   (conversation_detail_abort_and_join "c1" okNodesFetch okMessagesFetch).2
      [[("id", JVal.s "n1")]] [] rfl rfl⟩

/-- C6: For every PATCH /api/db/conversations/:id request, the update sent
to the backend is all caller-supplied body fields plus updated_at set to
the server's request-time timestamp: updated_at maps to the server value,
every updated_at binding holds the server value (a caller-supplied
updated_at is overridden), all other fields pass through unchanged, and
the success response is `{ success: true }`, not the updated row. -/
theorem patch_conversation_server_timestamp (id : String) (body : Obj)
    (nowIso : String) (update : PatchCall → Option String) :
    (patchDbConversation id body nowIso update).2 =
      ⟨"conversations", updateConversationPayload body nowIso, id⟩ ∧
    jsLookup (updateConversationPayload body nowIso) "updated_at" =
      some (JVal.s nowIso) ∧
    (∀ p ∈ updateConversationPayload body nowIso,
      p.1 = "updated_at" → p.2 = JVal.s nowIso) ∧
    (∀ k, k ≠ "updated_at" →
      jsLookup (updateConversationPayload body nowIso) k = jsLookup body k) ∧
    (update (patchDbConversation id body nowIso update).2 = none →
      (patchDbConversation id body nowIso update).1 =
        jsonResp 200 (JVal.obj [("success", JVal.b true)])) := by
  refine ⟨rfl, jsLookup_jsSpreadSet_self body "updated_at" (JVal.s nowIso),
    jsSpreadSet_mem_key,
    fun k hk => jsLookup_jsSpreadSet_other body (JVal.s nowIso) hk, ?_⟩
  intro h
  simp only [patchDbConversation] at h ⊢
  rw [h]

/-- Witness for C6 at a concrete input: the caller-supplied updated_at
"caller-time" is overridden with the server timestamp and the success
response is the plain acknowledgement. -/
theorem patch_conversation_server_timestamp_witness :
    jsLookup (updateConversationPayload
      [("status", JVal.s "archived"), ("updated_at", JVal.s "caller-time")]
      "2026-10-11T00:00:00.000Z") "updated_at" =
      some (JVal.s "2026-10-11T00:00:00.000Z") ∧
    (patchDbConversation "c1"
      [("status", JVal.s "archived"), ("updated_at", JVal.s "caller-time")]
      "2026-10-11T00:00:00.000Z" alwaysOkUpdate).1 =
      jsonResp 200 (JVal.obj [("success", JVal.b true)]) :=
  ⟨(patch_conversation_server_timestamp "c1"
      [("status", JVal.s "archived"), ("updated_at", JVal.s "caller-time")]
      "2026-10-11T00:00:00.000Z" alwaysOkUpdate).2.1,
   (patch_conversation_server_timestamp "c1"
      [("status", JVal.s "archived"), ("updated_at", JVal.s "caller-time")]
      "2026-10-11T00:00:00.000Z" alwaysOkUpdate).2.2.2.2 rfl⟩

/-- C7: For every PATCH /api/db/nodes/:id request, the update sent to the
backend is the single-field object `{ title: body.title }`: its key list
is exactly ["title"], applying it to any stored row leaves every other
field unchanged, the call is unaffected by any additional body fields
(bodies agreeing on title yield the same call and response), and the
success response is `{ success: true }`, not the updated row. -/
theorem patch_node_touches_only_title (id : String) (body : Obj)
    (update : PatchCall → Option String) :
    (patchDbNode id body update).2 = ⟨"nodes", [("title", jsGet body "title")], id⟩ ∧
    (updateNodePayload body).map Prod.fst = ["title"] ∧
    (∀ row k, k ≠ "title" →
      jsLookup (applyUpdate row (updateNodePayload body)) k = jsLookup row k) ∧
    (∀ body2 : Obj, jsGet body "title" = jsGet body2 "title" →
      patchDbNode id body update = patchDbNode id body2 update) ∧
    (update (patchDbNode id body update).2 = none →
      (patchDbNode id body update).1 =
        jsonResp 200 (JVal.obj [("success", JVal.b true)])) := by
  refine ⟨rfl, rfl, ?_, ?_, ?_⟩
  · intro row k hk
    show jsLookup (jsSpreadSet row "title" (jsGet body "title")) k = jsLookup row k
    exact jsLookup_jsSpreadSet_other row _ hk
  · intro body2 h2
    simp only [patchDbNode, updateNodePayload, h2]
  · intro h
    simp only [patchDbNode] at h ⊢
    rw [h]

/-- Witness for C7 at a concrete input: with a body carrying an extra
content field, the payload sent is only the title field, a stored row's
content survives the update, and the response is the acknowledgement. -/
theorem patch_node_touches_only_title_witness :
    (patchDbNode "n1" [("title", JVal.s "New"), ("content", JVal.s "sneaky")]
      alwaysOkUpdate).2.payload = [("title", JVal.s "New")] ∧
    jsLookup (applyUpdate [("id", JVal.s "n1"), ("content", JVal.s "keep")]
      (updateNodePayload [("title", JVal.s "New"), ("content", JVal.s "sneaky")]))
      "content" = some (JVal.s "keep") ∧
    (patchDbNode "n1" [("title", JVal.s "New"), ("content", JVal.s "sneaky")]
      alwaysOkUpdate).1 = jsonResp 200 (JVal.obj [("success", JVal.b true)]) := by
  have h := patch_node_touches_only_title "n1"
    [("title", JVal.s "New"), ("content", JVal.s "sneaky")] alwaysOkUpdate
  refine ⟨?_, ?_, h.2.2.2.2 rfl⟩
  · rw [h.1]
    rfl
  · rw [h.2.2.1 [("id", JVal.s "n1"), ("content", JVal.s "keep")] "content" (by decide)]
    rfl

/-- C8: When an AI provider call fails, the OpenRouter relay responds with
the upstream HTTP status when one is available (`error.response?.status`)
and 500 otherwise, while the OpenAI relay and the Gemini relay always
respond 500; in every failure case the response body is the relay's fixed
generic error message, independent of the upstream error payload (the
right-hand sides below do not mention the upstream data or message). -/
theorem relay_error_status_propagation (model messages : JVal)
    (stream : Option Bool) (st : Option Nat) (d : Option JVal)
    (e2 e3 : String) (r : GeminiReq) :
    openrouterChat model messages stream (fun _ => AxiosOutcome.fail st d) =
      errResp (st.getD 500) "Failed to fetch from OpenRouter" ∧
    (∀ s : Nat, openrouterChat model messages stream
      (fun _ => AxiosOutcome.fail (some s) d) =
      errResp s "Failed to fetch from OpenRouter") ∧
    openrouterChat model messages stream (fun _ => AxiosOutcome.fail none d) =
      errResp 500 "Failed to fetch from OpenRouter" ∧
    openaiChat model messages (fun _ _ => SdkResult.err e2) =
      errResp 500 "Failed to fetch from OpenAI" ∧
    (geminiGenerate r (fun _ => SdkResult.err e3)).1 =
      errResp 500 "Failed to fetch from Gemini" :=
  ⟨rfl, fun _ => rfl, rfl, rfl, rfl⟩

/-- C9: For every POST /api/gemini/generate request, the contents sent to
the provider are the caller's history entries (empty when history is
absent) followed by exactly one user turn whose only part is the prompt
text; the model defaults to "gemini-1.5-flash" when unspecified; the files
field is accepted but never forwarded (requests differing only in files
produce the same provider call and the same response); and on success the
response is only `{ text }`, not the full provider response object. -/
theorem gemini_contents_model_files_text (m : Option String) (p : JVal)
    (hist : Option (List JVal)) (f f2 : JVal)
    (u : GenCall → SdkResult) (v : JVal) :
    (geminiCall (GeminiReq.mk m p hist f)).contents =
      hist.getD [] ++ [JVal.obj [("role", JVal.s "user"),
        ("parts", JVal.arr [JVal.obj [("text", p)]])]] ∧
    (geminiCall (GeminiReq.mk m p none f)).contents =
      [JVal.obj [("role", JVal.s "user"),
        ("parts", JVal.arr [JVal.obj [("text", p)]])]] ∧
    (geminiCall (GeminiReq.mk none p hist f)).model = "gemini-1.5-flash" ∧
    geminiCall (GeminiReq.mk m p hist f) = geminiCall (GeminiReq.mk m p hist f2) ∧
    geminiGenerate (GeminiReq.mk m p hist f) u =
      geminiGenerate (GeminiReq.mk m p hist f2) u ∧
    (geminiGenerate (GeminiReq.mk m p hist f) (fun _ => SdkResult.ok v)).1 =
      jsonResp 200 (JVal.obj [("text", jsGetV v "text")]) :=
  ⟨rfl, rfl, rfl, rfl, rfl, rfl⟩

/-- C3 counterexample: a request carrying an invalid bearer token (header
"Bearer expiredtoken" against a backend rejecting every token, so no valid
token is carried) is answered 401 as the claim says, but one
identity-verification backend call IS attempted, refuting "no backend call
(identity verification or data operation) is attempted". -/
theorem db_auth_invalid_token_makes_identity_call :
    (runDbRoute (some "Bearer expiredtoken") rejectAllIdentity nullHandler).response.status = 401 ∧
    (runDbRoute (some "Bearer expiredtoken") rejectAllIdentity nullHandler).identityCalls = 1 ∧
    (runDbRoute (some "Bearer expiredtoken") rejectAllIdentity nullHandler).handlerRan = false :=
  ⟨rfl, rfl, rfl⟩

/-- C3 (amended): for every /api/db/* request that carries no bearer token
at all — the Authorization header is missing, has no second
space-separated field, or that field is empty, i.e. the extracted token is
falsy — the response is 401 `{ error: 'Unauthorized' }`, zero
identity-backend calls are made and the data handler does not run; a
present-but-invalid token instead triggers one identity-verification call
before being rejected. -/
theorem db_auth_missing_token_unauthorized_no_calls (h : Option String)
    (getUser : String → IdentityResult) (handler : User → HttpResponse)
    (hm : tokenFalsy (extractToken h)) :
    runDbRoute h getUser handler = ⟨errResp 401 "Unauthorized", 0, false⟩ := by
  rcases hm with hm | hm <;>
    simp [runDbRoute, authenticateUser, hm]

/-- Witness for C3's amended theorem: a request with no Authorization
header gets 401 Unauthorized with zero backend calls and no handler run. -/
theorem db_auth_missing_token_unauthorized_no_calls_witness :
    runDbRoute none rejectAllIdentity nullHandler =
      ⟨errResp 401 "Unauthorized", 0, false⟩ :=
  db_auth_missing_token_unauthorized_no_calls none rejectAllIdentity nullHandler
    (Or.inl rfl)

/-- C4 counterexample: with the identity backend rejecting the token with
the available message "JWT expired", the response's error message is the
fixed string "Invalid token", which is not the backend's message — the
claim that the Unauthorized error carries the backend's message fails
(the handler is indeed not executed). -/
theorem db_auth_rejected_token_fixed_message :
    (runDbRoute (some "Bearer sometoken") jwtExpiredIdentity nullHandler).response =
      errResp 401 "Invalid token" ∧
    ("Invalid token" : String) ≠ "JWT expired" ∧
    (runDbRoute (some "Bearer sometoken") jwtExpiredIdentity nullHandler).handlerRan = false :=
  ⟨rfl, by decide, rfl⟩

/-- C4 (amended): for every /api/db/* request whose bearer token is
present but rejected by the identity backend (backend error or empty user
result), the response is 401 with the fixed message "Invalid token" —
identical whatever the backend's message, which is logged but never
included — one identity call is made, and the request handler is not
executed. -/
theorem db_auth_rejected_token_invalid_token_response (h : Option String)
    (t : String) (getUser : String → IdentityResult)
    (handler : User → HttpResponse) (m : Option String)
    (ht : extractToken h = some t) (hne : t ≠ "")
    (hb : getUser t = IdentityResult.failure m) :
    runDbRoute h getUser handler = ⟨errResp 401 "Invalid token", 1, false⟩ ∧
    (∀ m1 m2 : Option String,
      runDbRoute h (fun _ => IdentityResult.failure m1) handler =
        runDbRoute h (fun _ => IdentityResult.failure m2) handler) := by
  constructor
  · simp only [runDbRoute, authenticateUser, ht, if_neg hne, verifyToken, hb]
  · intro m1 m2
    simp only [runDbRoute, authenticateUser, ht, if_neg hne, verifyToken]

/-- Witness for C4's amended theorem at a concrete rejected token whose
backend message is "JWT expired": the response is the fixed 401. -/
theorem db_auth_rejected_token_invalid_token_response_witness :
    runDbRoute (some "Bearer tok") jwtExpiredIdentity nullHandler =
      ⟨errResp 401 "Invalid token", 1, false⟩ :=
  (db_auth_rejected_token_invalid_token_response (some "Bearer tok") "tok"
    jwtExpiredIdentity nullHandler (some "JWT expired") rfl (by decide) rfl).1

/-- C10 counterexample: for the header "Basic a b" the code's extraction
`split(' ')[1]` yields "a" (the second space-separated field), not the
substring after the first space, which is "a b" — the claim's stated
extraction rule fails on headers with more than one space. -/
theorem extract_token_second_field_counterexample :
    extractToken (some "Basic a b") = some "a" ∧
    substringAfterFirstSpace "Basic a b" = some "a b" ∧
    extractToken (some "Basic a b") ≠ substringAfterFirstSpace "Basic a b" :=
  ⟨rfl, rfl, by decide⟩

/-- C10 (amended): the auth guard does not validate the "Bearer" scheme:
the token is the SECOND space-separated field of the Authorization header
(the substring between the first and second spaces), so any header
`<scheme> <token>` with a space-free scheme and space-free nonempty token
proceeds to identity verification with that token, while a header with no
space at all (including a bare token with no scheme) yields no token and
is rejected 401 with no backend call, as is a missing header. -/
theorem extract_token_scheme_agnostic (scheme tok hdr : String)
    (getUser : String → IdentityResult)
    (hs : ∀ c ∈ scheme.data, c ≠ Char.ofNat 32)
    (ht : ∀ c ∈ tok.data, c ≠ Char.ofNat 32)
    (hne : tok ≠ "")
    (hh : ∀ c ∈ hdr.data, c ≠ Char.ofNat 32) :
    extractToken (some (scheme ++ " " ++ tok)) = some tok ∧
    authenticateUser (some (scheme ++ " " ++ tok)) getUser = verifyToken tok getUser ∧
    extractToken (some hdr) = none ∧
    authenticateUser (some hdr) getUser =
      AuthResult.denied (errResp 401 "Unauthorized") 0 ∧
    authenticateUser none getUser =
      AuthResult.denied (errResp 401 "Unauthorized") 0 := by
  have hd : (scheme ++ " " ++ tok).data = scheme.data ++ Char.ofNat 32 :: tok.data := by
    have h1 : (scheme ++ " " ++ tok).data = (scheme.data ++ [Char.ofNat 32]) ++ tok.data := rfl
    rw [h1, List.append_assoc]
    rfl
  have he : extractToken (some (scheme ++ " " ++ tok)) = some tok := by
    show (jsSplitSpace (scheme ++ " " ++ tok)).get? 1 = some tok
    unfold jsSplitSpace
    rw [hd, splitOnSpace_append_space _ hs, splitOnSpace_no_space ht]
    rfl
  have h3 : extractToken (some hdr) = none := by
    show (jsSplitSpace hdr).get? 1 = none
    unfold jsSplitSpace
    rw [splitOnSpace_no_space hh]
    rfl
  refine ⟨he, ?_, h3, ?_, rfl⟩
  · simp only [authenticateUser, he, if_neg hne]
  · simp only [authenticateUser, h3]

/-- Witness for C10's amended theorem at concrete inputs: "Basic xyz"
proceeds to verification with token "xyz"; a bare space-free token is
rejected as missing. -/
theorem extract_token_scheme_agnostic_witness :
    extractToken (some ("Basic" ++ " " ++ "xyz")) = some "xyz" ∧
    authenticateUser (some ("Basic" ++ " " ++ "xyz")) rejectAllIdentity =
      verifyToken "xyz" rejectAllIdentity ∧
    extractToken (some "baretoken") = none :=
  have h := extract_token_scheme_agnostic "Basic" "xyz" "baretoken" rejectAllIdentity
    (by decide) (by decide) (by decide) (by decide)
  ⟨h.1, h.2.1, h.2.2.1⟩
